import Mathlib

/-!
Verification of the article authoring and publishing workflow of the
Easy-Finds-Hub dashboard.  The definitions below are shallow embeddings of
the TypeScript source:

* `login` embeds the credential check of `src/contexts/AuthContext.tsx`
  (lines 27-45), including the email regex test and the session update.
* `validateTitle`, `validateCategory`, `validateExcerpt`, `validateTags`
  embed the per-field rules registered with the form library in
  `src/pages/Dashboard.tsx` (lines 108-164).
* `onSubmit` embeds the publish transaction of `src/pages/Dashboard.tsx`
  (lines 59-91) as a function of an environment (the outcomes of the two
  external calls and the two clock reads) returning the final component
  state, the ordered trace of observable effects, and the error surfaced
  to the user, if any.
* `previewTagChips` embeds the tag-chip computation of
  `src/components/ArticlePreview.tsx` (lines 26-35).
-/

namespace EasyFindsHub

/-- The character class `\s` of a JavaScript regular expression (the JS
WhiteSpace and LineTerminator sets). -/
def jsWhitespace (c : Char) : Bool :=
  c = ' ' || c = '\t' || c = '\n' || c = '\r' ||
  c = '\x0b' || c = '\x0c' || c = '\u00A0' || c = '\u1680' ||
  ('\u2000' ≤ c && c ≤ '\u200A') || c = '\u2028' || c = '\u2029' ||
  c = '\u202F' || c = '\u205F' || c = '\u3000' || c = '\uFEFF'

/-- A character matched by `[^\s@]` in the login email regex. -/
def emailChar (c : Char) : Bool :=
  !(jsWhitespace c) && c ≠ '@'

/-- Split a character list at its first `'@'`, returning the parts before
and after it; `none` when the list has no `'@'`.  Mirrors how the anchored
regex `^[^\s@]+@...` must consume everything up to the first `'@'`. -/
def splitAtFirstAtSign : List Char → Option (List Char × List Char)
  | [] => none
  | c :: cs =>
    if c = '@' then some ([], cs)
    else
      match splitAtFirstAtSign cs with
      | some (pre, post) => some (c :: pre, post)
      | none => none

/-- `emailRegexTest email` is the result of
`/^[^\s@]+@[^\s@]+\.[^\s@]+$/.test(email)` from `AuthContext.tsx` line 29:
the string must be `X@Y` with `X` a nonempty run of non-whitespace
non-`@` characters and `Y` a nonempty run of non-whitespace non-`@`
characters containing a `'.'` that is neither its first nor its last
character. -/
def emailRegexTest (email : String) : Bool :=
  match splitAtFirstAtSign email.toList with
  | none => false
  | some (localPart, domainPart) =>
    !localPart.isEmpty && localPart.all emailChar &&
    domainPart.all emailChar &&
    ((domainPart.drop 1).dropLast.contains '.')

/-- The login error taxonomy of the spec: the three failure modes of the
credential check. -/
inductive LoginError where
  | InvalidFormat
  | WeakCredential
  | AuthenticationFailed
deriving DecidableEq, Repr

/-- The `User` record of `AuthContext.tsx` (the Session of the spec). -/
structure User where
  email : String
  isAdmin : Bool
deriving DecidableEq, Repr

/-- The single hardcoded admin email (`AuthContext.tsx` line 40). -/
def adminEmail : String := "admin@easyfindshub.com"

/-- The single hardcoded admin password (`AuthContext.tsx` line 40). -/
def adminPassword : String := "admin123"

/-- `login` from `AuthContext.tsx` lines 27-45, as a transition on the
stored session (`user`) also returning the error thrown, if any.  The
session is written only on the single success branch. -/
def login (user : Option User) (email password : String) :
    Option User × Option LoginError :=
  if emailRegexTest email = false then
    (user, some .InvalidFormat)
  else if password.length < 6 then
    (user, some .WeakCredential)
  else if email = adminEmail && password = adminPassword then
    (some { email := email, isAdmin := true }, none)
  else
    (user, some .AuthenticationFailed)

/-- `logout` from `AuthContext.tsx` lines 47-49: clears the session. -/
def logout (_user : Option User) : Option User := none

/-! ## Tag splitting (shared string helpers)

`String.prototype.split(',')` and `String.prototype.trim()` of JavaScript,
used at `Dashboard.tsx` line 70 and `ArticlePreview.tsx` lines 27-33. -/

/-- JavaScript `split(',')` on a character list: `""` yields `[""]`, and
leading, trailing and adjacent commas yield empty segments. -/
def jsSplitCommaList : List Char → List (List Char)
  | [] => [[]]
  | c :: cs =>
    let rest := jsSplitCommaList cs
    if c = ',' then [] :: rest
    else
      match rest with
      | [] => [[c]]
      | t :: ts => (c :: t) :: ts

/-- JavaScript `s.split(',')`. -/
def jsSplitComma (s : String) : List String :=
  (jsSplitCommaList s.toList).map List.asString

/-- JavaScript `s.trim()`: drop leading and trailing `\s` characters. -/
def jsTrim (s : String) : String :=
  (((s.toList.dropWhile jsWhitespace).reverse.dropWhile jsWhitespace).reverse).asString

/-- The tag sequence computed by the publish transaction,
`data.tags.split(',').map(tag => tag.trim())` (`Dashboard.tsx` line 70). -/
def dashboardTags (raw : String) : List String :=
  (jsSplitComma raw).map jsTrim

/-- The tag chips rendered by the preview pane,
`tags?.split(',').map(...)` with `{tag.trim()}` as each chip's text
(`ArticlePreview.tsx` lines 27-33). -/
def previewTagChips (raw : String) : List String :=
  (jsSplitComma raw).map jsTrim

/-! ## Form fields and validation (`Dashboard.tsx` lines 108-164) -/

/-- The registered form fields (the `ArticleForm` interface restricted to
the fields actually registered: `content` is never registered, so the
submitted data holds only these four). -/
structure ArticleForm where
  title : String
  category : String
  excerpt : String
  tags : String
deriving DecidableEq, Repr

/-- The four options offered by the category select element
(`Dashboard.tsx` lines 129-132). -/
def fourCategories : List String :=
  ["home-decor", "travel-deals", "home-appliances", "garden-planting"]

/-- Rules registered on `title` (`Dashboard.tsx` lines 112-115): required,
then minimum length 10; the first failing rule's message is reported. -/
def validateTitle (t : String) : Option String :=
  if t = "" then some "Title is required"
  else if t.length < 10 then some "Title must be at least 10 characters"
  else none

/-- Rule registered on `category` (`Dashboard.tsx` line 126): required
only; no rule checks membership in the select's options. -/
def validateCategory (c : String) : Option String :=
  if c = "" then some "Category is required" else none

/-- Rules registered on `excerpt` (`Dashboard.tsx` lines 142-145):
required, then maximum length 160. -/
def validateExcerpt (e : String) : Option String :=
  if e = "" then some "Excerpt is required"
  else if 160 < e.length then some "Excerpt must be less than 160 characters"
  else none

/-- Rule registered on `tags` (`Dashboard.tsx` line 157): required only. -/
def validateTags (t : String) : Option String :=
  if t = "" then some "At least one tag is required" else none

/-- The per-field error map the form library builds at submit time: every
registered field's rule runs on its own value, independently. -/
structure FieldErrors where
  title : Option String
  category : Option String
  excerpt : Option String
  tags : Option String
deriving DecidableEq, Repr

/-- Run all four registered validators on a form snapshot. -/
def validateForm (f : ArticleForm) : FieldErrors :=
  { title := validateTitle f.title
    category := validateCategory f.category
    excerpt := validateExcerpt f.excerpt
    tags := validateTags f.tags }

/-- No field reported an error. -/
def hasNoErrors (e : FieldErrors) : Bool :=
  e.title.isNone && e.category.isNone && e.excerpt.isNone && e.tags.isNone

/-- `handleSubmit(onSubmit)` invokes `onSubmit` exactly when no registered
rule fails. -/
def handleSubmitProceeds (f : ArticleForm) : Bool :=
  hasNoErrors (validateForm f)

/-! ## The publish transaction (`Dashboard.tsx` lines 59-91) -/

/-- The staged image: the `File` kept in the `image` state variable; only
its name is observable in the embedded workflow (the storage key). -/
structure ImageFile where
  name : String
deriving DecidableEq, Repr

/-- The component state of `AddArticle` that the publish transaction
reads and writes (`Dashboard.tsx` lines 35-40). -/
structure FormState where
  fields : ArticleForm
  content : String
  image : Option ImageFile
  imagePreview : String
  isSubmitting : Bool
deriving DecidableEq, Repr

/-- The form state `reset()` restores: no default values were supplied to
the form hook, so every registered field reverts to empty. -/
def emptyForm : ArticleForm :=
  { title := "", category := "", excerpt := "", tags := "" }

/-- The record written to the `articles` collection (`Dashboard.tsx`
lines 72-78): the spread of the registered data with `content`,
`imageUrl`, `tags` and `createdAt` overriding. -/
structure ArticleDoc where
  title : String
  category : String
  excerpt : String
  content : String
  imageUrl : String
  tags : List String
  createdAt : String
deriving DecidableEq, Repr

/-- The outcomes of the external calls and clock reads made during one run
of `onSubmit`, fixed in advance: `now` is `Date.now()`, `uploadOk` whether
`uploadBytes` resolves, `urlOk`/`urlValue` whether and with what
`getDownloadURL` resolves, `persistOk` whether `addDoc` resolves, and
`createdAt` is `new Date().toISOString()`. -/
structure PublishEnv where
  now : Nat
  uploadOk : Bool
  urlOk : Bool
  urlValue : String
  persistOk : Bool
  createdAt : String
deriving DecidableEq, Repr

/-- The error taxonomy of the publish transaction, tagged by which of the
two external operations threw the exception the `catch` block reports. -/
inductive PublishError where
  | UploadFailed
  | PersistFailed
deriving DecidableEq, Repr

/-- One observable effect of a run of `onSubmit`, in program order. -/
inductive Event where
  | setSubmitting (b : Bool)
  | uploadBytes (key : String)
  | getDownloadURL (key : String)
  | addDoc (doc : ArticleDoc)
  | resetForm
  | setContent (s : String)
  | setImage (o : Option ImageFile)
  | setImagePreview (s : String)
  | consoleError
  | alertMsg (s : String)
deriving DecidableEq, Repr

/-- The storage key built at `Dashboard.tsx` line 65:
`` `articles/${Date.now()}-${image.name}` ``. -/
def publishKey (now : Nat) (name : String) : String :=
  "articles/" ++ Nat.repr now ++ "-" ++ name

/-- Modelled from the spec: the object-storage key format of §6,
`articles/{epochMillisecondsAsInteger}-{originalFileName}`. -/
def specObjectKey (epochMillis : Nat) (originalFileName : String) : String :=
  "articles/" ++ Nat.repr epochMillis ++ "-" ++ originalFileName

/-- The document assembled at `Dashboard.tsx` lines 72-78. -/
def mkDoc (data : ArticleForm) (content imageUrl createdAt : String) : ArticleDoc :=
  { title := data.title, category := data.category, excerpt := data.excerpt
    content := content, imageUrl := imageUrl
    tags := dashboardTags data.tags, createdAt := createdAt }

/-- The effects of the `catch` block (`Dashboard.tsx` lines 85-88). -/
def catchEvents : List Event :=
  [.consoleError, .alertMsg "Error publishing article. Please try again."]

/-- The second half of `onSubmit`: build the tag list and the document,
attempt `addDoc`, and on success reset all fields, the editor content and
the staged image; the `finally` block clears `isSubmitting` on both
paths. -/
def persistPhase (env : PublishEnv) (st : FormState) (data : ArticleForm)
    (imageUrl : String) (pre : List Event) :
    FormState × List Event × Option PublishError :=
  let doc := mkDoc data st.content imageUrl env.createdAt
  if env.persistOk then
    ({ st with fields := emptyForm, content := "", image := none,
               imagePreview := "", isSubmitting := false },
     pre ++ [.addDoc doc, .resetForm, .setContent "", .setImage none,
             .setImagePreview "",
             .alertMsg "Article published successfully!",
             .setSubmitting false],
     none)
  else
    ({ st with isSubmitting := false },
     pre ++ [.addDoc doc] ++ catchEvents ++ [.setSubmitting false],
     some .PersistFailed)

/-- `onSubmit` from `Dashboard.tsx` lines 59-91: set `isSubmitting`, if an
image is staged upload it under a timestamped key and resolve its URL
(either failure is caught before the document write), then run the
persist phase; the `finally` block always clears `isSubmitting`. -/
def onSubmit (env : PublishEnv) (st : FormState) (data : ArticleForm) :
    FormState × List Event × Option PublishError :=
  let stF := { st with isSubmitting := true }
  let pre := [Event.setSubmitting true]
  match st.image with
  | some img =>
    let key := publishKey env.now img.name
    if env.uploadOk then
      if env.urlOk then
        persistPhase env stF data env.urlValue
          (pre ++ [.uploadBytes key, .getDownloadURL key])
      else
        ({ stF with isSubmitting := false },
         pre ++ [.uploadBytes key, .getDownloadURL key] ++ catchEvents ++
           [.setSubmitting false],
         some .UploadFailed)
    else
      ({ stF with isSubmitting := false },
       pre ++ [.uploadBytes key] ++ catchEvents ++ [.setSubmitting false],
       some .UploadFailed)
  | none => persistPhase env stF data "" pre

/-- The final component state after one run of `onSubmit`. -/
def stateOf (env : PublishEnv) (st : FormState) (data : ArticleForm) : FormState :=
  (onSubmit env st data).1

/-- The ordered effect trace of one run of `onSubmit`. -/
def eventsOf (env : PublishEnv) (st : FormState) (data : ArticleForm) : List Event :=
  (onSubmit env st data).2.1

/-- The error surfaced by one run of `onSubmit`, if any. -/
def resultOf (env : PublishEnv) (st : FormState) (data : ArticleForm) :
    Option PublishError :=
  (onSubmit env st data).2.2

/-- The submit button's `disabled` attribute (`Dashboard.tsx` line 182):
`disabled={isSubmitting}`. -/
def submitDisabled (st : FormState) : Bool :=
  st.isSubmitting

/-- Whether an event is a document-store write attempt. -/
def isAddDoc : Event → Bool
  | .addDoc _ => true
  | _ => false

/-- Whether an event is an object-storage upload attempt. -/
def isUpload : Event → Bool
  | .uploadBytes _ => true
  | _ => false

/-- Whether an event toggles the `isSubmitting` flag. -/
def isSetSubmitting : Event → Bool
  | .setSubmitting _ => true
  | _ => false

/-- A document-store write occurring strictly before some object-storage
upload in a trace. -/
def addDocBeforeUpload : List Event → Bool
  | [] => false
  | e :: rest => (isAddDoc e && rest.any isUpload) || addDocBeforeUpload rest

/-- Whether `handleSubmit` lets a submission through for a given component
state: only the registered fields are consulted, never the editor
content. -/
def submitAllowed (st : FormState) : Bool :=
  handleSubmitProceeds st.fields

/-! ## Sample values used by the witness theorems -/

/-- A form snapshot passing every registered rule. -/
def sampleForm : ArticleForm :=
  { title := "Ten Gardening Tips", category := "garden-planting",
    excerpt := "Short excerpt.", tags := "a, b ,c" }

/-- A form snapshot whose only defect is a 9-character title. -/
def nineCharForm : ArticleForm :=
  { sampleForm with title := "Nine char" }

/-- A staged image file. -/
def sampleImage : ImageFile := { name := "photo.png" }

/-- Component state with no staged image. -/
def stNoImage : FormState :=
  { fields := sampleForm, content := "<p>Body</p>", image := none,
    imagePreview := "", isSubmitting := false }

/-- Component state with a staged image and its data-URL preview. -/
def stWithImage : FormState :=
  { stNoImage with
      image := some sampleImage
      imagePreview := "data:image/png;base64,AAAA" }

/-- An environment in which both external calls resolve. -/
def envAllOk : PublishEnv :=
  { now := 1700000000000, uploadOk := true, urlOk := true,
    urlValue := "https://cdn.example.com/photo.png", persistOk := true,
    createdAt := "2023-11-14T22:13:20.000Z" }

/-- An environment in which `uploadBytes` rejects. -/
def envUploadFail : PublishEnv := { envAllOk with uploadOk := false }

/-- An environment in which `addDoc` rejects. -/
def envPersistFail : PublishEnv := { envAllOk with persistOk := false }

/-! ## Theorems -/

/-- Claim C1: in every publish transaction the object-storage upload
strictly precedes the document-store write (no trace has a write before
an upload), and when an image is staged and the upload fails, no
document-store write is ever attempted and the surfaced error is
`UploadFailed`. -/
theorem upload_precedes_write_and_upload_failure_aborts
    (env : PublishEnv) (st : FormState) (data : ArticleForm) :
    addDocBeforeUpload (eventsOf env st data) = false ∧
    (st.image.isSome = true → env.uploadOk = false →
      (eventsOf env st data).any isAddDoc = false ∧
      resultOf env st data = some PublishError.UploadFailed) := by
  cases h : st.image with
  | none =>
    cases hp : env.persistOk <;>
      simp [eventsOf, resultOf, onSubmit, persistPhase, h, hp,
        addDocBeforeUpload, isAddDoc, isUpload, catchEvents]
  | some img =>
    cases hu : env.uploadOk with
    | false =>
      simp [eventsOf, resultOf, onSubmit, persistPhase, h, hu,
        addDocBeforeUpload, isAddDoc, isUpload, catchEvents]
    | true =>
      cases hl : env.urlOk <;> cases hp : env.persistOk <;>
        simp [eventsOf, resultOf, onSubmit, persistPhase, h, hu, hl, hp,
          addDocBeforeUpload, isAddDoc, isUpload, catchEvents]

/-- Witness for claim C1: with an image staged and a failing upload, the
concrete run attempts no document write and reports `UploadFailed`. -/
theorem upload_failure_aborts_witness :
    (eventsOf envUploadFail stWithImage sampleForm).any isAddDoc = false ∧
    resultOf envUploadFail stWithImage sampleForm =
      some PublishError.UploadFailed :=
  (upload_precedes_write_and_upload_failure_aborts envUploadFail stWithImage
    sampleForm).2 (by decide) (by decide)

/-- Claim C2: when the transaction succeeds, the registered fields, the
editor content and the staged image with its preview all revert to their
initial empty state; when it fails (upload or persist), every one of them
is left exactly as it was. -/
theorem publish_outcome_determines_draft_reset
    (env : PublishEnv) (st : FormState) (data : ArticleForm) :
    (resultOf env st data = none →
      (stateOf env st data).fields = emptyForm ∧
      (stateOf env st data).content = "" ∧
      (stateOf env st data).image = none ∧
      (stateOf env st data).imagePreview = "") ∧
    (resultOf env st data ≠ none →
      (stateOf env st data).fields = st.fields ∧
      (stateOf env st data).content = st.content ∧
      (stateOf env st data).image = st.image ∧
      (stateOf env st data).imagePreview = st.imagePreview) := by
  cases h : st.image with
  | none =>
    cases hp : env.persistOk <;>
      simp [stateOf, resultOf, onSubmit, persistPhase, h, hp]
  | some img =>
    cases hu : env.uploadOk with
    | false => simp [stateOf, resultOf, onSubmit, persistPhase, h, hu]
    | true =>
      cases hl : env.urlOk <;> cases hp : env.persistOk <;>
        simp [stateOf, resultOf, onSubmit, persistPhase, h, hu, hl, hp]

/-- Witness for claim C2: a successful concrete run resets all four
pieces of draft state, and a failing persist leaves all four intact. -/
theorem publish_reset_witness :
    ((stateOf envAllOk stWithImage sampleForm).fields = emptyForm ∧
      (stateOf envAllOk stWithImage sampleForm).content = "" ∧
      (stateOf envAllOk stWithImage sampleForm).image = none ∧
      (stateOf envAllOk stWithImage sampleForm).imagePreview = "") ∧
    ((stateOf envPersistFail stWithImage sampleForm).fields =
        stWithImage.fields ∧
      (stateOf envPersistFail stWithImage sampleForm).content =
        stWithImage.content ∧
      (stateOf envPersistFail stWithImage sampleForm).image =
        stWithImage.image ∧
      (stateOf envPersistFail stWithImage sampleForm).imagePreview =
        stWithImage.imagePreview) :=
  ⟨(publish_outcome_determines_draft_reset envAllOk stWithImage sampleForm).1
      (by decide),
   (publish_outcome_determines_draft_reset envPersistFail stWithImage
      sampleForm).2 (by decide)⟩

/-- Claim C3: `login` fails with `InvalidFormat` when the email fails the
format test, with `WeakCredential` when the password is shorter than 6,
with `AuthenticationFailed` on every other well-formed pair except the
hardcoded admin pair, and on exactly that pair succeeds and stores a
session with `isAdmin = true`. -/
theorem login_case_analysis (st : Option User) (e p : String) :
    (emailRegexTest e = false →
      login st e p = (st, some LoginError.InvalidFormat)) ∧
    (emailRegexTest e = true → p.length < 6 →
      login st e p = (st, some LoginError.WeakCredential)) ∧
    (emailRegexTest e = true → 6 ≤ p.length →
      ¬(e = adminEmail ∧ p = adminPassword) →
      login st e p = (st, some LoginError.AuthenticationFailed)) ∧
    login st adminEmail adminPassword =
      (some { email := adminEmail, isAdmin := true }, none) := by
  refine ⟨?_, ?_, ?_, ?_⟩
  · intro h; simp [login, h]
  · intro h hlen; simp [login, h, hlen]
  · intro h hlen hne
    have hnl : ¬ p.length < 6 := by omega
    simp [login, h, hnl]
    intro he hp
    exact absurd ⟨he, hp⟩ hne
  · have h1 : emailRegexTest adminEmail = true := by decide
    have h2 : ¬ (adminPassword.length < 6) := by decide
    simp [login, h1, h2]

/-- Witness for claim C3: one concrete input for each of the four
branches of the credential check. -/
theorem login_branches_witness :
    login none "not-an-email" "password123" =
      (none, some LoginError.InvalidFormat) ∧
    login none "a@b.com" "short" = (none, some LoginError.WeakCredential) ∧
    login none "a@b.com" "password123" =
      (none, some LoginError.AuthenticationFailed) ∧
    login none adminEmail adminPassword =
      (some { email := adminEmail, isAdmin := true }, none) :=
  ⟨(login_case_analysis none "not-an-email" "password123").1 (by decide),
   (login_case_analysis none "a@b.com" "short").2.1 (by decide) (by decide),
   (login_case_analysis none "a@b.com" "password123").2.2.1 (by decide)
     (by decide) (by decide),
   (login_case_analysis none adminEmail adminPassword).2.2.2⟩

/-- Claim C4: every persisted document carries exactly the comma-split,
element-wise-trimmed tag sequence of the raw value — order preserved, no
de-duplication, no filtering of empty elements (the split length is
preserved, and leading/trailing commas survive as empty-string tags);
`"a, b ,c"` persists as `["a", "b", "c"]`. -/
theorem persisted_tags_split_trim
    (env : PublishEnv) (st : FormState) (data : ArticleForm) :
    (∀ d, Event.addDoc d ∈ eventsOf env st data →
      d.tags = (jsSplitComma data.tags).map jsTrim) ∧
    (∀ raw : String, (dashboardTags raw).length = (jsSplitComma raw).length) ∧
    dashboardTags "a, b ,c" = ["a", "b", "c"] ∧
    dashboardTags ",a," = ["", "a", ""] := by
  refine ⟨?_, fun raw => by simp [dashboardTags], by decide, by decide⟩
  cases h : st.image with
  | none =>
    cases hp : env.persistOk <;>
      simp [eventsOf, onSubmit, persistPhase, h, hp, catchEvents, mkDoc,
        dashboardTags]
  | some img =>
    cases hu : env.uploadOk with
    | false => simp [eventsOf, onSubmit, persistPhase, h, hu, catchEvents]
    | true =>
      cases hl : env.urlOk <;> cases hp : env.persistOk <;>
        simp [eventsOf, onSubmit, persistPhase, h, hu, hl, hp, catchEvents,
          mkDoc, dashboardTags]

/-- Witness for claim C4: the document written by a concrete successful
run carries the split-and-trimmed tags of the submitted raw value. -/
theorem persisted_tags_witness :
    (mkDoc sampleForm stNoImage.content "" envAllOk.createdAt).tags =
      (jsSplitComma sampleForm.tags).map jsTrim :=
  (persisted_tags_split_trim envAllOk stNoImage sampleForm).1 _ (by decide)

/-- Counterexample for claim C5 as stated: a draft whose category is not
one of the four enumerated select values nevertheless passes every
registered validation rule, so submission proceeds — no rule enforces
membership in the enumeration. -/
theorem category_rule_counterexample :
    handleSubmitProceeds
      { title := "0123456789", category := "bogus-category",
        excerpt := "x", tags := "t" } = true ∧
    "bogus-category" ∉ fourCategories := by decide

/-- Claim C5 (amended): each registered field's rule runs independently
on its own value and all failing fields report simultaneously; title
requires length ≥ 10, category requires non-emptiness only (the
four-value restriction comes from the select options, not a rule),
excerpt requires non-empty and ≤ 160, tags requires non-empty, content is
never consulted; submission proceeds iff no rule fails, and a 9-character
title fails with exactly the minimum-length message. -/
theorem validation_rules_amended (f : ArticleForm) :
    (validateForm f).title = validateTitle f.title ∧
    (validateForm f).category = validateCategory f.category ∧
    (validateForm f).excerpt = validateExcerpt f.excerpt ∧
    (validateForm f).tags = validateTags f.tags ∧
    (handleSubmitProceeds f = true ↔
      validateTitle f.title = none ∧ validateCategory f.category = none ∧
      validateExcerpt f.excerpt = none ∧ validateTags f.tags = none) ∧
    (validateTitle f.title = none ↔ 10 ≤ f.title.length) ∧
    (validateCategory f.category = none ↔ f.category ≠ "") ∧
    (validateExcerpt f.excerpt = none ↔
      (f.excerpt ≠ "" ∧ f.excerpt.length ≤ 160)) ∧
    (validateTags f.tags = none ↔ f.tags ≠ "") ∧
    (f.title.length = 9 →
      (validateForm f).title = some "Title must be at least 10 characters") ∧
    (∀ st : FormState, ∀ c : String,
      submitAllowed { st with content := c } = submitAllowed st) := by
  refine ⟨rfl, rfl, rfl, rfl, ?_, ?_, ?_, ?_, ?_, ?_, fun st c => rfl⟩
  · simp [handleSubmitProceeds, hasNoErrors, validateForm,
      Option.isNone_iff_eq_none]
    tauto
  · unfold validateTitle
    split
    · rename_i h; simp [h]
    · split <;> rename_i h1 h2 <;> simp <;> omega
  · unfold validateCategory
    split <;> simp_all
  · unfold validateExcerpt
    split
    · rename_i h; simp [h]
    · split <;> rename_i h1 h2 <;> simp_all
  · unfold validateTags
    split <;> simp_all
  · intro h9
    have hne : f.title ≠ "" := by
      intro he; rw [he] at h9; simp at h9
    unfold validateForm validateTitle
    simp [hne]
    omega

/-- Witness for claim C5: the sample draft passes all rules, and the
draft whose only defect is a 9-character title fails with the
minimum-length message on `title`. -/
theorem validation_rules_witness :
    handleSubmitProceeds sampleForm = true ∧
    (validateForm nineCharForm).title =
      some "Title must be at least 10 characters" :=
  ⟨((validation_rules_amended sampleForm).2.2.2.2.1).mpr
     ⟨by decide, by decide, by decide, by decide⟩,
   ((validation_rules_amended nineCharForm).2.2.2.2.2.2.2.2.2.1) (by decide)⟩

/-- Claim C6: the submit control is disabled exactly while `isSubmitting`
holds; every run of `onSubmit` sets the flag first, clears it last
(whatever the outcome), and never touches it in between, so the control
is disabled throughout the flight and re-enabled on every path. -/
theorem submit_control_lifecycle
    (env : PublishEnv) (st : FormState) (data : ArticleForm) :
    (∀ s : FormState, submitDisabled s = s.isSubmitting) ∧
    (stateOf env st data).isSubmitting = false ∧
    (∃ mid : List Event,
      eventsOf env st data =
        Event.setSubmitting true :: (mid ++ [Event.setSubmitting false]) ∧
      mid.any isSetSubmitting = false) := by
  refine ⟨fun s => rfl, ?_, ?_⟩
  · cases h : st.image with
    | none =>
      cases hp : env.persistOk <;>
        simp [stateOf, onSubmit, persistPhase, h, hp]
    | some img =>
      cases hu : env.uploadOk with
      | false => simp [stateOf, onSubmit, persistPhase, h, hu]
      | true =>
        cases hl : env.urlOk <;> cases hp : env.persistOk <;>
          simp [stateOf, onSubmit, persistPhase, h, hu, hl, hp]
  · cases h : st.image with
    | none =>
      cases hp : env.persistOk with
      | true =>
        refine ⟨[.addDoc (mkDoc data st.content "" env.createdAt), .resetForm,
          .setContent "", .setImage none, .setImagePreview "",
          .alertMsg "Article published successfully!"], ?_, ?_⟩ <;>
          simp [eventsOf, onSubmit, persistPhase, h, hp, isSetSubmitting]
      | false =>
        refine ⟨[.addDoc (mkDoc data st.content "" env.createdAt)] ++
          catchEvents, ?_, ?_⟩ <;>
          simp [eventsOf, onSubmit, persistPhase, h, hp, isSetSubmitting,
            catchEvents]
    | some img =>
      cases hu : env.uploadOk with
      | false =>
        refine ⟨[.uploadBytes (publishKey env.now img.name)] ++ catchEvents,
          ?_, ?_⟩ <;>
          simp [eventsOf, onSubmit, persistPhase, h, hu, isSetSubmitting,
            catchEvents]
      | true =>
        cases hl : env.urlOk with
        | false =>
          refine ⟨[.uploadBytes (publishKey env.now img.name),
            .getDownloadURL (publishKey env.now img.name)] ++ catchEvents,
            ?_, ?_⟩ <;>
            simp [eventsOf, onSubmit, persistPhase, h, hu, hl,
              isSetSubmitting, catchEvents]
        | true =>
          cases hp : env.persistOk with
          | true =>
            refine ⟨[.uploadBytes (publishKey env.now img.name),
              .getDownloadURL (publishKey env.now img.name),
              .addDoc (mkDoc data st.content env.urlValue env.createdAt),
              .resetForm, .setContent "", .setImage none, .setImagePreview "",
              .alertMsg "Article published successfully!"], ?_, ?_⟩ <;>
              simp [eventsOf, onSubmit, persistPhase, h, hu, hl, hp,
                isSetSubmitting]
          | false =>
            refine ⟨[.uploadBytes (publishKey env.now img.name),
              .getDownloadURL (publishKey env.now img.name),
              .addDoc (mkDoc data st.content env.urlValue env.createdAt)] ++
              catchEvents, ?_, ?_⟩ <;>
              simp [eventsOf, onSubmit, persistPhase, h, hu, hl, hp,
                isSetSubmitting, catchEvents]

/-- Witness for claim C6: after a concrete failing run the submit control
is re-enabled. -/
theorem submit_lifecycle_witness :
    (stateOf envPersistFail stWithImage sampleForm).isSubmitting = false :=
  (submit_control_lifecycle envPersistFail stWithImage sampleForm).2.1

/-- Claim C7: with no staged image, no object-storage upload is ever
attempted and every persisted document carries an empty `imageUrl`. -/
theorem no_image_no_upload_and_empty_imageUrl
    (env : PublishEnv) (st : FormState) (data : ArticleForm)
    (h : st.image = none) :
    (eventsOf env st data).any isUpload = false ∧
    (∀ d, Event.addDoc d ∈ eventsOf env st data → d.imageUrl = "") := by
  cases hp : env.persistOk <;>
    simp [eventsOf, onSubmit, persistPhase, h, hp, isUpload, catchEvents,
      mkDoc]

/-- Witness for claim C7: a concrete imageless run makes no upload call
and writes a document with empty `imageUrl`. -/
theorem no_image_witness :
    (eventsOf envAllOk stNoImage sampleForm).any isUpload = false ∧
    (mkDoc sampleForm stNoImage.content "" envAllOk.createdAt).imageUrl
      = "" :=
  ⟨(no_image_no_upload_and_empty_imageUrl envAllOk stNoImage sampleForm
      rfl).1,
   (no_image_no_upload_and_empty_imageUrl envAllOk stNoImage sampleForm
      rfl).2 _ (by decide)⟩

/-- Claim C8: with a staged image, an upload is attempted and every
upload in the trace uses exactly the key
`articles/{epochMillisecondsAsInteger}-{originalFileName}`. -/
theorem upload_key_format
    (env : PublishEnv) (st : FormState) (data : ArticleForm) (img : ImageFile)
    (h : st.image = some img) :
    (eventsOf env st data).any isUpload = true ∧
    (∀ k, Event.uploadBytes k ∈ eventsOf env st data →
      k = specObjectKey env.now img.name) := by
  cases hu : env.uploadOk with
  | false =>
    simp [eventsOf, onSubmit, persistPhase, h, hu, isUpload, catchEvents,
      publishKey, specObjectKey]
  | true =>
    cases hl : env.urlOk <;> cases hp : env.persistOk <;>
      simp [eventsOf, onSubmit, persistPhase, h, hu, hl, hp, isUpload,
        catchEvents, publishKey, specObjectKey]

/-- Witness for claim C8: a concrete run with a staged image uploads, and
its key equals the spec's key format at the run's clock and filename. -/
theorem upload_key_witness :
    (eventsOf envAllOk stWithImage sampleForm).any isUpload = true ∧
    publishKey envAllOk.now sampleImage.name =
      specObjectKey envAllOk.now sampleImage.name :=
  ⟨(upload_key_format envAllOk stWithImage sampleForm sampleImage rfl).1,
   (upload_key_format envAllOk stWithImage sampleForm sampleImage rfl).2 _
     (by decide)⟩

/-- Claim C9: every failing `login` leaves the stored session unchanged;
the session is written only on the single success branch. -/
theorem login_failure_preserves_session (st : Option User) (e p : String) :
    ((login st e p).2 ≠ none → (login st e p).1 = st) ∧
    ((login st e p).2 = none →
      (login st e p).1 = some { email := e, isAdmin := true }) := by
  unfold login
  split <;> simp_all
  split <;> simp_all
  split <;> simp_all

/-- Witness for claim C9: a concrete failing login leaves an existing
session in place. -/
theorem login_preserves_session_witness :
    (login (some { email := adminEmail, isAdmin := true }) "a@b.com"
      "password123").1 = some { email := adminEmail, isAdmin := true } :=
  (login_failure_preserves_session
    (some { email := adminEmail, isAdmin := true }) "a@b.com"
    "password123").1 (by decide)

/-- Claim C10: for every raw tags string the preview pane's chip sequence
equals the tag sequence the publish transaction persists, element for
element and in order; in particular every document written by `onSubmit`
carries exactly the chips the preview would show for the submitted raw
value. -/
theorem preview_chips_match_persisted_tags
    (env : PublishEnv) (st : FormState) (data : ArticleForm) :
    (∀ raw : String, previewTagChips raw = dashboardTags raw) ∧
    (∀ d, Event.addDoc d ∈ eventsOf env st data →
      d.tags = previewTagChips data.tags) := by
  refine ⟨fun raw => rfl, ?_⟩
  cases h : st.image with
  | none =>
    cases hp : env.persistOk <;>
      simp [eventsOf, onSubmit, persistPhase, h, hp, catchEvents, mkDoc,
        previewTagChips, dashboardTags]
  | some img =>
    cases hu : env.uploadOk with
    | false => simp [eventsOf, onSubmit, persistPhase, h, hu, catchEvents]
    | true =>
      cases hl : env.urlOk <;> cases hp : env.persistOk <;>
        simp [eventsOf, onSubmit, persistPhase, h, hu, hl, hp, catchEvents,
          mkDoc, previewTagChips, dashboardTags]

/-- Witness for claim C10: on the concrete raw value the preview chips
equal the persisted tags, and the document written by a concrete run
carries exactly those chips. -/
theorem preview_chips_witness :
    previewTagChips "a, b ,c" = dashboardTags "a, b ,c" ∧
    (mkDoc sampleForm stNoImage.content "" envAllOk.createdAt).tags =
      previewTagChips sampleForm.tags :=
  ⟨(preview_chips_match_persisted_tags envAllOk stNoImage sampleForm).1 _,
   (preview_chips_match_persisted_tags envAllOk stNoImage sampleForm).2 _
     (by decide)⟩

end EasyFindsHub
